import Mathlib

/-!
Shallow embedding of `src/app.py` (Blueshift Support screen-recording intake
server) and proofs about it.

The server keeps three pieces of process-wide mutable state:
`recordings_storage` (a Python dict from an 8-character id to a recording
record), `recording_log` (a list of upload events, trimmed to the last 100),
and `error_log` (a list of error entries, trimmed to the last 50).  We model
bytes as `List Nat`, the dict as an association list with Python-dict
insert/lookup semantics, and each HTTP handler as a pure function from its
request data, the nondeterministic inputs it draws (current time, a fresh
UUID string) and the current state to a response and the next state.
External effects a handler performs (storing a record, appending a log event,
calling the Google Drive relay) are additionally recorded in an explicit
`trace`, so that theorems can speak about which delivery path a request
exercises.
-/

set_option autoImplicit false

universe u

/-- A JSON scalar value, enough for the bodies this app builds with
`jsonify`. -/
inductive JsonVal where
  | str : String → JsonVal
  | bool : Bool → JsonVal
  | nat : Nat → JsonVal
deriving DecidableEq, Repr

/-- A JSON object, as the ordered field list `jsonify` receives. -/
abbrev JsonObj := List (String × JsonVal)

/-- Field lookup in a JSON object. -/
def jsonGet (k : String) : JsonObj → Option JsonVal
  | [] => none
  | (k', v) :: rest => if k' = k then some v else jsonGet k rest

/-- One stored recording: the dict value placed in `recordings_storage`
(`app.py` lines 948-955). -/
structure Recording where
  filename : String
  data : List Nat
  duration : String
  created_at : String
  size_bytes : Nat
  content_type : String
deriving DecidableEq, Repr

/-- One upload event appended to `recording_log` (`app.py` lines 958-964). -/
structure RecordingEntry where
  id : String
  filename : String
  duration : String
  stored_at : String
  size_bytes : Nat
deriving DecidableEq, Repr

/-- One entry of `error_log` (`app.py` lines 149-152). -/
structure ErrorEntry where
  timestamp : String
  message : String
deriving DecidableEq, Repr

/-- `recordings_storage` is a Python dict; we model it as an association
list in insertion order, with dict insert/lookup semantics. -/
abbrev Store := List (String × Recording)

/-- Python dict assignment `d[k] = v`: overwrite in place if the key exists,
otherwise append. -/
def dictInsert (k : String) (v : Recording) : Store → Store
  | [] => [(k, v)]
  | (k', v') :: rest =>
      if k' = k then (k, v) :: rest else (k', v') :: dictInsert k v rest

/-- Python dict lookup `d[k]` / `k in d`: `none` when the key is absent. -/
def dictGet (k : String) : Store → Option Recording
  | [] => none
  | (k', v) :: rest => if k' = k then some v else dictGet k rest

/-- The `append` + `if len(log) > cap: log.pop(0)` idiom used for both
bounded logs (`app.py` lines 153-158 and 966-970). -/
def trimAppend {α : Type u} (cap : Nat) (log : List α) (e : α) : List α :=
  let log := log ++ [e]
  if log.length > cap then log.drop 1 else log

/-- `log_error` (`app.py` lines 147-158): append a timestamped entry and
keep only the last 50. `now` stands for `datetime.now().isoformat()`. -/
def log_error (now msg : String) (elog : List ErrorEntry) : List ErrorEntry :=
  trimAppend 50 elog { timestamp := now, message := msg }

/-- The process state the handlers share (`app.py` lines 140-145). -/
structure AppState where
  recordings_storage : Store
  recording_log : List RecordingEntry
  error_log : List ErrorEntry
deriving DecidableEq, Repr

/-- The state at process start: all three containers empty. -/
def initialState : AppState := ⟨[], [], []⟩

/-- Python truthiness of an optional environment string, as in
`if not GOOGLE_CREDENTIALS_JSON` / `if GOOGLE_CREDENTIALS_JSON and ...`:
absent and empty are both falsy. -/
def truthyStr : Option String → Bool
  | none => false
  | some s => !s.isEmpty

/-- An external side effect a handler performs, in order.  `cloudUpload`
stands for a call to `upload_to_google_drive`; `storePut` for an insert
into `recordings_storage`; `logEvent` for an append to `recording_log`. -/
inductive Effect where
  | cloudUpload (filename : String) (bytes : List Nat)
  | storePut (id : String)
  | logEvent (id : String)
deriving DecidableEq, Repr

/-- Whether an effect is a cloud-relay upload attempt. -/
def isCloudUpload : Effect → Bool
  | .cloudUpload _ _ => true
  | _ => false

/-- The request data `POST /api/store-recording` reads:
`request.files.get('recording')` (the uploaded bytes, `none` when absent or
falsy), `request.form.get('duration')`, and `request.url_root`. -/
structure StoreRequest where
  recording : Option (List Nat)
  duration : Option String
  url_root : String
deriving DecidableEq, Repr

/-- Result of the `store_recording` handler: HTTP status, JSON body, the
next process state, and the trace of external effects performed. -/
structure StoreResult where
  status : Nat
  body : JsonObj
  state : AppState
  trace : List Effect
deriving DecidableEq, Repr

/-- `store_recording` (`app.py` lines 919-989), the `POST
/api/store-recording` handler.  `google_credentials_json` is the
`GOOGLE_CREDENTIALS_JSON` environment value, which is in scope but never
consulted by this handler; `timestamp` is `int(time.time())`; `uuidStr` is
`str(uuid.uuid4())` (36 characters); `now` is
`datetime.now().isoformat()`.  With a file: mint `unique_id` and
`filename`, insert the record, append a trimmed log event, and answer 200
with the watch URL; without a file: answer 400 and leave the state
untouched. -/
def store_recording (google_credentials_json : Option String)
    (req : StoreRequest) (timestamp : Nat) (uuidStr : String) (now : String)
    (st : AppState) : StoreResult :=
  let _ := google_credentials_json
  let duration := req.duration.getD "00:00"
  match req.recording with
  | none =>
      { status := 400
        body := [("error", .str "No recording file provided")]
        state := st
        trace := [] }
  | some file_data =>
      let unique_id := uuidStr.take 8
      let filename :=
        "blueshift-recording-" ++ toString timestamp ++ "-" ++ unique_id
          ++ ".webm"
      let record : Recording :=
        { filename := filename
          data := file_data
          duration := duration
          created_at := now
          size_bytes := file_data.length
          content_type := "video/webm" }
      let storage := dictInsert unique_id record st.recordings_storage
      let entry : RecordingEntry :=
        { id := unique_id
          filename := filename
          duration := duration
          stored_at := now
          size_bytes := file_data.length }
      let rlog := trimAppend 100 st.recording_log entry
      let recording_url := req.url_root ++ "watch/" ++ unique_id
      { status := 200
        body :=
          [("success", .bool true),
           ("recording_url", .str recording_url),
           ("recording_id", .str unique_id),
           ("message", .str "Recording stored successfully")]
        state := { st with recordings_storage := storage, recording_log := rlog }
        trace := [.storePut unique_id, .logEvent unique_id] }

/-- The body of an HTTP response. `text` is a plain string return (Flask
turns `("...", code)` into a text body); `bytes` is a raw `Response` body;
`watchPage` stands for the rendered video-player template of
`watch_recording`'s found branch (`app.py` lines 1021-1137): its only
dynamic content is the recording id and the record's metadata, and its
megabyte figure is floating-point-formatted, which we keep abstract. -/
inductive Body where
  | text : String → Body
  | bytes : List Nat → Body
  | watchPage : String → Recording → Body
deriving DecidableEq, Repr

/-- An HTTP response: status, body, the mimetype when one is set
explicitly, and the explicitly set headers. -/
structure HttpResponse where
  status : Nat
  body : Body
  mimetype : Option String
  headers : List (String × String)
deriving DecidableEq, Repr

/-- `serve_video` (`app.py` lines 1143-1162), the `GET /api/video/{id}`
handler: unknown id answers a bare 404 text, a known id answers the stored
bytes inline with the stored content type and an explicit length.  The
guarded body is total, so the `except` arm (lines 1160-1162) is
unreachable. -/
def serve_video (recording_id : String) (st : AppState) : HttpResponse :=
  match dictGet recording_id st.recordings_storage with
  | none =>
      { status := 404, body := .text "Recording not found",
        mimetype := none, headers := [] }
  | some recording =>
      { status := 200
        body := .bytes recording.data
        mimetype := some recording.content_type
        headers :=
          [("Content-Disposition",
              "inline; filename=\"" ++ recording.filename ++ "\""),
           ("Content-Length", toString recording.size_bytes)] }

/-- `download_recording` (`app.py` lines 1164-1183), the `GET
/api/download/{id}` handler: like `serve_video` but with attachment
disposition and an octet-stream content type. -/
def download_recording (recording_id : String) (st : AppState) : HttpResponse :=
  match dictGet recording_id st.recordings_storage with
  | none =>
      { status := 404, body := .text "Recording not found",
        mimetype := none, headers := [] }
  | some recording =>
      { status := 200
        body := .bytes recording.data
        mimetype := some "application/octet-stream"
        headers :=
          [("Content-Disposition",
              "attachment; filename=\"" ++ recording.filename ++ "\""),
           ("Content-Length", toString recording.size_bytes)] }

/-- The literal not-found page of `watch_recording` (`app.py` lines
996-1016); it contains no template placeholder, so rendering it is the
identity.  Braces and apostrophes are escaped (`\x7b`, `\x7d`, `\x27`). -/
def WATCH_NOT_FOUND_HTML : String :=
"
<!DOCTYPE html>
<html>
<head>
    <title>Recording Not Found</title>
    <style>
        body \x7b font-family: Arial, sans-serif; max-width: 600px; margin: 100px auto; padding: 20px; text-align: center; background: #f5f7fa; \x7d
        .error-box \x7b background: white; padding: 40px; border-radius: 15px; box-shadow: 0 10px 30px rgba(0,0,0,0.1); \x7d
        h1 \x7b color: #dc3545; \x7d
        .back-link \x7b background: #667eea; color: white; padding: 15px 30px; text-decoration: none; border-radius: 8px; display: inline-block; margin-top: 20px; \x7d
    </style>
</head>
<body>
    <div class=\"error-box\">
        <h1>🔍 Recording Not Found</h1>
        <p>The recording you\x27re looking for doesn\x27t exist or may have expired.</p>
        <a href=\"/recording\" class=\"back-link\">🎬 Create New Recording</a>
    </div>
</body>
</html>
            "

/-- `watch_recording` (`app.py` lines 991-1141), the `GET /watch/{id}`
handler: unknown id renders the presentational not-found page with status
404, a known id renders the player page.  Both branches are total, so the
`except` arm (lines 1139-1141, the 500 path) is unreachable. -/
def watch_recording (recording_id : String) (st : AppState) : HttpResponse :=
  match dictGet recording_id st.recordings_storage with
  | none =>
      { status := 404, body := .text WATCH_NOT_FOUND_HTML,
        mimetype := none, headers := [] }
  | some recording =>
      { status := 200, body := .watchPage recording_id recording,
        mimetype := none, headers := [] }

/-- Outcome of the external Google Drive calls inside
`upload_to_google_drive`'s `try` body (JSON parsing, service build, file
create, permission create): either every call succeeds and the created
file has id `file_id`, or some call raises an exception rendered as
`msg`. -/
inductive DriveOutcome where
  | ok (file_id : String)
  | raises (msg : String)
deriving DecidableEq, Repr

/-- `upload_to_google_drive` (`app.py` lines 59-138).  Returns the
Python pair `(shareable_link, error_msg)` when the function returns, or
`.error` when an exception escapes it.  Unconfigured credentials return
`(None, error_msg)` after logging.  When the `try` body raises, the
`except` arm logs the error message and then evaluates
`traceback.format_exc()` on line 135 — but `import traceback` only occurs
on line 136, which makes `traceback` an unassigned local name, so line 135
itself raises `UnboundLocalError`, which escapes the function; the second
`log_error` call never runs. -/
def upload_to_google_drive (google_credentials_json : Option String)
    (env : DriveOutcome) (file_data : List Nat) (filename : String)
    (now : String) (elog : List ErrorEntry) :
    Except String (Option String × Option String) × List ErrorEntry :=
  let _ := file_data
  let _ := filename
  if !truthyStr google_credentials_json then
    let error_msg := "Google Drive credentials not configured"
    (.ok (none, some error_msg), log_error now error_msg elog)
  else
    match env with
    | .ok file_id =>
        let shareable_link :=
          "https://drive.google.com/file/d/" ++ file_id ++ "/view?usp=sharing"
        (.ok (some shareable_link, none), elog)
    | .raises msg =>
        let error_msg := "Google Drive upload error: " ++ msg
        let elog := log_error now error_msg elog
        (.error "UnboundLocalError: local variable referenced before assignment",
         elog)

/-- The Flask session fields this app uses: `session.get('authenticated')`
(falsy when absent) and `session.get('username')`. -/
structure Session where
  authenticated : Bool
  username : Option String
deriving DecidableEq, Repr

/-- What the `require_auth` decorator (`app.py` lines 49-57) does before
the wrapped handler runs: pass through, answer 401 JSON, or redirect to
the login page. -/
inductive AuthDecision where
  | proceed
  | unauthorized401 (body : JsonObj)
  | redirectLogin
deriving DecidableEq, Repr

/-- `require_auth`'s gate: no authenticated session means a 401 JSON error
for JSON requests and a redirect to `/admin/login` otherwise; an
authenticated session proceeds to the wrapped handler. -/
def require_auth (sess : Session) (is_json : Bool) : AuthDecision :=
  if !sess.authenticated then
    if is_json then .unauthorized401 [("error", .str "Authentication required")]
    else .redirectLogin
  else .proceed

/-- `verify_admin_password` (`app.py` lines 43-47) with `get_admin_hash`
(lines 40-41) inlined: reject a wrong username, otherwise compare the
PBKDF2-HMAC-SHA256 hex digests of the stored and submitted passwords with
`secrets.compare_digest` (plain equality of the digests).  `pbkdf2`
abstracts `hashlib.pbkdf2_hmac('sha256', ·, b'admin-salt', 100000).hex()`. -/
def verify_admin_password (pbkdf2 : String → String)
    (admin_username admin_password : String)
    (username password : String) : Bool :=
  if username ≠ admin_username then false
  else pbkdf2 admin_password == pbkdf2 password

/-- Response of `POST /admin/login`: the login page (with an optional
error banner) or a redirect to the admin dashboard. -/
inductive LoginResult where
  | loginPage (error : Option String)
  | redirectDashboard
deriving DecidableEq, Repr

/-- The POST branch of `admin_login` (`app.py` lines 830-843): a valid
credential pair marks the session authenticated and redirects to the
dashboard; anything else re-renders the login page with an error. -/
def admin_login_post (pbkdf2 : String → String)
    (admin_username admin_password : String)
    (username password : String) (sess : Session) : LoginResult × Session :=
  if verify_admin_password pbkdf2 admin_username admin_password username password
  then (.redirectDashboard,
        { sess with authenticated := true, username := some username })
  else (.loginPage (some "Invalid credentials"), sess)

/-- `health` (`app.py` lines 1185-1199), the `GET /health` handler; its
`total_recordings` field is `len(recording_log)`, the trimmed event log,
not the size of `recordings_storage`. -/
def health (google_credentials_json : Option String)
    (google_drive_available : Bool) (st : AppState) : JsonObj :=
  let drive_status :=
    if truthyStr google_credentials_json && google_drive_available then
      "configured"
    else "not_configured"
  [("status", .str "healthy"),
   ("app", .str "blueshiftsupport-screen-capture"),
   ("version", .str "2.0-googledrive"),
   ("recording_available", .bool true),
   ("google_drive", .str drive_status),
   ("total_recordings", .nat st.recording_log.length)]

/-- The per-request inputs of one `POST /api/store-recording` call: the
request data and the nondeterministic draws the handler makes. -/
structure UploadInput where
  req : StoreRequest
  timestamp : Nat
  uuidStr : String
  now : String
deriving DecidableEq, Repr

/-- The issued handle of an upload input: `str(uuid.uuid4())[:8]`. -/
def UploadInput.uid (u : UploadInput) : String := u.uuidStr.take 8

/-- Run a sequence of `POST /api/store-recording` requests, threading the
process state. -/
def runUploads (google_credentials_json : Option String) (st : AppState) :
    List UploadInput → AppState
  | [] => st
  | u :: rest =>
      runUploads google_credentials_json
        (store_recording google_credentials_json u.req u.timestamp u.uuidStr
          u.now st).state rest

/-- The record `store_recording` builds for an accepted upload input,
certified against the handler by `store_recording_state_store` below. -/
def UploadInput.record (u : UploadInput) : Recording :=
  { filename :=
      "blueshift-recording-" ++ toString u.timestamp ++ "-" ++ u.uid ++ ".webm"
    data := u.req.recording.getD []
    duration := u.req.duration.getD "00:00"
    created_at := u.now
    size_bytes := (u.req.recording.getD []).length
    content_type := "video/webm" }

/-- The upload event `store_recording` appends for an accepted upload
input, certified against the handler by `store_recording_state_log`
below. -/
def UploadInput.entry (u : UploadInput) : RecordingEntry :=
  { id := u.uid
    filename :=
      "blueshift-recording-" ++ toString u.timestamp ++ "-" ++ u.uid ++ ".webm"
    duration := u.req.duration.getD "00:00"
    stored_at := u.now
    size_bytes := (u.req.recording.getD []).length }

/-- A deterministic accepted upload input used as concrete test data:
one byte of content, duration `00:05`, and `toString n` standing for the
UUID draw (so its issued handle is `toString n`). -/
def mkTestUpload (n : Nat) : UploadInput :=
  { req :=
      { recording := some [n % 256]
        duration := some "00:05"
        url_root := "http://localhost/" }
    timestamp := n
    uuidStr := toString n
    now := "2026-01-01T00:00:00" }

/-- 150 sequential accepted uploads with pairwise distinct handles. -/
def testUploads150 : List UploadInput := (List.range 150).map mkTestUpload

/-- 101 sequential accepted uploads with pairwise distinct handles. -/
def testUploads101 : List UploadInput := (List.range 101).map mkTestUpload

/-! ### Helper lemmas about the store and the bounded logs -/

theorem dictGet_dictInsert_self (k : String) (v : Recording) (s : Store) :
    dictGet k (dictInsert k v s) = some v := by
  induction s with
  | nil => simp [dictInsert, dictGet]
  | cons hd tl ih =>
      obtain ⟨k', v'⟩ := hd
      by_cases h : k' = k <;> simp [dictInsert, dictGet, h, ih]

theorem dictGet_dictInsert_ne (k k' : String) (v : Recording) (s : Store)
    (h : k ≠ k') : dictGet k (dictInsert k' v s) = dictGet k s := by
  have h' : ¬(k' = k) := fun hh => h hh.symm
  induction s with
  | nil => simp [dictInsert, dictGet, h']
  | cons hd tl ih =>
      obtain ⟨k'', v''⟩ := hd
      by_cases h2 : k'' = k'
      · subst h2
        simp [dictInsert, dictGet, h']
      · simp only [dictInsert, if_neg h2]
        by_cases h3 : k'' = k
        · simp [dictGet, h3]
        · simp [dictGet, h3, ih]

theorem length_dictInsert_fresh (k : String) (v : Recording) (s : Store)
    (h : dictGet k s = none) :
    (dictInsert k v s).length = s.length + 1 := by
  induction s with
  | nil => simp [dictInsert]
  | cons hd tl ih =>
      obtain ⟨k', v'⟩ := hd
      by_cases h2 : k' = k
      · simp [dictGet, h2] at h
      · simp [dictGet, h2] at h
        simp [dictInsert, h2, ih h]

theorem length_trimAppend_le {α : Type u} (cap : Nat) (log : List α) (e : α)
    (h : log.length ≤ cap) : (trimAppend cap log e).length ≤ cap := by
  simp only [trimAppend]
  by_cases hc : (log ++ [e]).length > cap
  · rw [if_pos hc]
    simp only [List.length_drop, List.length_append, List.length_singleton, List.length_cons, List.length_nil] at hc ⊢
    omega
  · rw [if_neg hc]
    simp only [List.length_append, List.length_singleton, List.length_cons, List.length_nil] at hc ⊢
    omega

/-- Folding the append-and-trim step keeps exactly the newest `cap`
elements: starting below the cap, the result is the concatenation with the
overflow dropped from the front. -/
theorem foldl_trimAppend {α : Type u} (cap : Nat) :
    ∀ (events : List α) (log : List α), log.length ≤ cap →
      List.foldl (trimAppend cap) log events
        = (log ++ events).drop (log.length + events.length - cap)
  | [], log, h => by
      simp [Nat.sub_eq_zero_of_le h]
  | e :: es, log, h => by
      rw [List.foldl_cons]
      by_cases hlen : log.length + 1 ≤ cap
      · have hc : ¬((log ++ [e]).length > cap) := by
          simp only [List.length_append, List.length_singleton, List.length_cons, List.length_nil]
          omega
        have htrim : trimAppend cap log e = log ++ [e] := by
          simp only [trimAppend]
          rw [if_neg hc]
        have hlen2 : (log ++ [e]).length ≤ cap := by
          simp only [List.length_append, List.length_singleton, List.length_cons, List.length_nil]
          omega
        rw [htrim, foldl_trimAppend cap es (log ++ [e]) hlen2]
        have hcount : (log ++ [e]).length + es.length - cap
            = log.length + (e :: es).length - cap := by
          simp only [List.length_append, List.length_singleton, List.length_cons, List.length_nil]
          omega
        rw [hcount, List.append_assoc, List.singleton_append]
      · have hcap : log.length = cap := by omega
        have hgt : (log ++ [e]).length > cap := by
          simp only [List.length_append, List.length_singleton, List.length_cons, List.length_nil]
          omega
        have htrim : trimAppend cap log e = (log ++ [e]).drop 1 := by
          simp only [trimAppend]
          rw [if_pos hgt]
        have hlen1 : ((log ++ [e]).drop 1).length = cap := by
          simp only [List.length_drop, List.length_append, List.length_singleton, List.length_cons, List.length_nil]
          omega
        rw [htrim, foldl_trimAppend cap es _ (le_of_eq hlen1), hlen1]
        have hc1 : cap + es.length - cap = es.length := by omega
        have hc2 : log.length + (e :: es).length - cap = es.length + 1 := by
          simp only [List.length_cons]
          omega
        rw [hc1, hc2]
        have hone : (1 : Nat) ≤ (log ++ [e]).length := by
          simp only [List.length_append, List.length_singleton, List.length_cons, List.length_nil]
          omega
        rw [← List.drop_append_of_le_length hone, List.drop_drop,
          List.append_assoc, List.singleton_append, Nat.add_comm]

theorem length_foldl_trimAppend {α : Type u} (cap : Nat) (events log : List α)
    (h : log.length ≤ cap) :
    (List.foldl (trimAppend cap) log events).length
      = min (log.length + events.length) cap := by
  rw [foldl_trimAppend cap events log h]
  simp
  omega

theorem length_take_eight (s : String) (h : 8 ≤ s.length) :
    (s.take 8).length = 8 := by
  rw [← String.length_data, String.data_take, List.length_take,
    String.length_data]
  omega

theorem store_recording_state_store (c : Option String) (u : UploadInput)
    (st : AppState) (b : List Nat) (h : u.req.recording = some b) :
    (store_recording c u.req u.timestamp u.uuidStr u.now st).state.recordings_storage
      = dictInsert u.uid u.record st.recordings_storage := by
  simp [store_recording, h, UploadInput.record, UploadInput.uid]

theorem store_recording_state_log (c : Option String) (u : UploadInput)
    (st : AppState) (b : List Nat) (h : u.req.recording = some b) :
    (store_recording c u.req u.timestamp u.uuidStr u.now st).state.recording_log
      = trimAppend 100 st.recording_log u.entry := by
  simp [store_recording, h, UploadInput.entry, UploadInput.uid]

theorem store_recording_state_rejected (c : Option String) (u : UploadInput)
    (st : AppState) (h : u.req.recording = none) :
    (store_recording c u.req u.timestamp u.uuidStr u.now st).state = st := by
  simp [store_recording, h]

theorem runUploads_log_le (c : Option String) :
    ∀ (us : List UploadInput) (st : AppState),
      st.recording_log.length ≤ 100 →
      (runUploads c st us).recording_log.length ≤ 100
  | [], st, h => h
  | u :: rest, st, h => by
      rw [runUploads]
      rcases hrec : u.req.recording with _ | b
      · rw [store_recording_state_rejected c u st hrec]
        exact runUploads_log_le c rest st h
      · refine runUploads_log_le c rest _ ?_
        rw [store_recording_state_log c u st b hrec]
        exact length_trimAppend_le 100 st.recording_log u.entry h

theorem runUploads_log (c : Option String) :
    ∀ (us : List UploadInput) (st : AppState),
      (∀ u ∈ us, u.req.recording.isSome) →
      (runUploads c st us).recording_log
        = List.foldl (trimAppend 100) st.recording_log (us.map UploadInput.entry)
  | [], st, _ => rfl
  | u :: rest, st, h => by
      obtain ⟨b, hb⟩ := Option.isSome_iff_exists.mp (h u (by simp))
      rw [runUploads, List.map_cons, List.foldl_cons]
      have hrest : ∀ v ∈ rest, v.req.recording.isSome := by
        intro v hv
        exact h v (by simp [hv])
      rw [runUploads_log c rest _ hrest, store_recording_state_log c u st b hb]

theorem runUploads_store_length (c : Option String) :
    ∀ (us : List UploadInput) (st : AppState),
      (∀ u ∈ us, u.req.recording.isSome) →
      (∀ u ∈ us, dictGet u.uid st.recordings_storage = none) →
      (us.map UploadInput.uid).Nodup →
      (runUploads c st us).recordings_storage.length
        = st.recordings_storage.length + us.length
  | [], st, _, _, _ => rfl
  | u :: rest, st, h, hfresh, hnodup => by
      obtain ⟨b, hb⟩ := Option.isSome_iff_exists.mp (h u (by simp))
      rw [runUploads]
      have hrest : ∀ v ∈ rest, v.req.recording.isSome := fun v hv =>
        h v (by simp [hv])
      rw [List.map_cons, List.nodup_cons] at hnodup
      have hfresh2 : ∀ v ∈ rest,
          dictGet v.uid
            (store_recording c u.req u.timestamp u.uuidStr u.now st).state.recordings_storage
            = none := by
        intro v hv
        rw [store_recording_state_store c u st b hb]
        have hne : v.uid ≠ u.uid := by
          intro hvu
          exact hnodup.1 (hvu ▸ List.mem_map_of_mem UploadInput.uid hv)
        rw [dictGet_dictInsert_ne _ _ _ _ hne]
        exact hfresh v (by simp [hv])
      rw [runUploads_store_length c rest _ hrest hfresh2 hnodup.2,
        store_recording_state_store c u st b hb,
        length_dictInsert_fresh _ _ _ (hfresh u (by simp))]
      simp only [List.length_cons]
      omega

/-! ### Claim theorems -/

/-- C7: a `POST /api/store-recording` request that carries no recording
file is answered with status 400 and a JSON error body, and the whole
process state — the recording store, the upload-event log, and the error
log — is left unchanged by that request. -/
theorem missing_file_rejected_400 (creds : Option String) (dur : Option String)
    (url_root : String) (ts : Nat) (uuidStr now : String) (st : AppState) :
    store_recording creds ⟨none, dur, url_root⟩ ts uuidStr now st
      = { status := 400
          body := [("error", JsonVal.str "No recording file provided")]
          state := st
          trace := [] } := by
  simp [store_recording]

/-- C4: for a handle id absent from the recording store, `GET
/api/video/{id}` and `GET /api/download/{id}` answer a bare 404 not-found
text, and `GET /watch/{id}` answers the presentational not-found page with
status 404 — not a 500 server error. -/
theorem unknown_handle_not_found (st : AppState) (recording_id : String)
    (h : dictGet recording_id st.recordings_storage = none) :
    serve_video recording_id st
      = { status := 404, body := .text "Recording not found",
          mimetype := none, headers := [] }
    ∧ download_recording recording_id st
      = { status := 404, body := .text "Recording not found",
          mimetype := none, headers := [] }
    ∧ watch_recording recording_id st
      = { status := 404, body := .text WATCH_NOT_FOUND_HTML,
          mimetype := none, headers := [] }
    ∧ (watch_recording recording_id st).status ≠ 500 := by
  refine ⟨?_, ?_, ?_, ?_⟩ <;>
    simp [serve_video, download_recording, watch_recording, h]

/-- Witness for C4 at the spec's concrete scenario `/watch/doesnotexist`
against the initial (empty) store. -/
theorem unknown_handle_not_found_witness :
    watch_recording "doesnotexist" initialState
      = { status := 404, body := .text WATCH_NOT_FOUND_HTML,
          mimetype := none, headers := [] } :=
  (unknown_handle_not_found initialState "doesnotexist" rfl).2.2.1

/-- C2 counterexample: with a third-party cloud credential configured
(truthy `GOOGLE_CREDENTIALS_JSON`) and a well-formed upload, the handler's
effect trace is exactly the local-path pair (store insert, log append) and
contains no cloud-relay attempt, so the cloud-relay path is not "attempted
first" — it is not attempted at all: `upload_to_google_drive` has no
caller in `store_recording`. -/
theorem cloud_relay_attempted_first_cx :
    truthyStr (some "service-account-credentials") = true
    ∧ (store_recording (some "service-account-credentials")
        ⟨some [104, 105], some "00:05", "http://localhost/"⟩ 1700000000
        "0a1b2c3d-1111-2222-3333-444455556666" "2026-01-01T00:00:00"
        initialState).trace
      = [.storePut "0a1b2c3d", .logEvent "0a1b2c3d"]
    ∧ (store_recording (some "service-account-credentials")
        ⟨some [104, 105], some "00:05", "http://localhost/"⟩ 1700000000
        "0a1b2c3d-1111-2222-3333-444455556666" "2026-01-01T00:00:00"
        initialState).trace.any isCloudUpload = false := by
  refine ⟨rfl, rfl, rfl⟩

/-- C2 amended: `POST /api/store-recording` never attempts the cloud-relay
path, whatever the credential configuration; every accepted upload is
delivered through the local-handle path alone, so the two delivery paths
are indeed never both used within a single upload. -/
theorem cloud_relay_never_attempted (creds : Option String)
    (req : StoreRequest) (ts : Nat) (uuidStr now : String) (st : AppState) :
    (store_recording creds req ts uuidStr now st).trace.any isCloudUpload = false
    ∧ (req.recording.isSome = true →
        Effect.storePut (uuidStr.take 8)
          ∈ (store_recording creds req ts uuidStr now st).trace) := by
  rcases h : req.recording with _ | b <;>
    simp [store_recording, h, isCloudUpload]

/-- Witness for C2's amended theorem at a concrete configured-credential
upload. -/
theorem cloud_relay_never_attempted_witness :
    Effect.storePut (String.take "0a1b2c3d-1111-2222-3333-444455556666" 8)
      ∈ (store_recording (some "service-account-credentials")
          ⟨some [104, 105], some "00:05", "http://localhost/"⟩ 1700000000
          "0a1b2c3d-1111-2222-3333-444455556666" "2026-01-01T00:00:00"
          initialState).trace :=
  (cloud_relay_never_attempted (some "service-account-credentials")
    ⟨some [104, 105], some "00:05", "http://localhost/"⟩ 1700000000
    "0a1b2c3d-1111-2222-3333-444455556666" "2026-01-01T00:00:00"
    initialState).2 rfl

/-- C3: when the credentials are configured and any call in the `try` body
of `upload_to_google_drive` raises, the `except` arm itself raises
`UnboundLocalError` (line 135 uses `traceback` one line before `import
traceback`), so an exception escapes the operation instead of an error
string being returned.  The other two paths behave as the claim states:
unconfigured credentials return `(None, error-description)` and success
returns `(shareable-url, None)`. -/
theorem drive_failure_branch_raises :
    (upload_to_google_drive (some "service-account-credentials")
        (.raises "Expecting value: line 1 column 1 (char 0)") [104] "f.webm"
        "2026-01-01T00:00:00" []).1
      = .error "UnboundLocalError: local variable referenced before assignment"
    ∧ (upload_to_google_drive none (.ok "fid123") [104] "f.webm"
        "2026-01-01T00:00:00" []).1
      = .ok (none, some "Google Drive credentials not configured")
    ∧ (upload_to_google_drive (some "service-account-credentials")
        (.ok "fid123") [104] "f.webm" "2026-01-01T00:00:00" []).1
      = .ok (some "https://drive.google.com/file/d/fid123/view?usp=sharing",
             none) := by
  refine ⟨rfl, rfl, rfl⟩

/-- C1: an accepted upload of bytes `x` answers 200 with a
`recording_id`, and a subsequent `GET /api/video/{id}` with that id
returns exactly the bytes `x`, with the stored media type `video/webm`
and a `Content-Length` header equal to the byte length of `x`. -/
theorem store_then_serve_roundtrip (creds : Option String) (st : AppState)
    (x : List Nat) (req : StoreRequest) (ts : Nat) (uuidStr now : String)
    (h : req.recording = some x) :
    (store_recording creds req ts uuidStr now st).status = 200
    ∧ jsonGet "recording_id" (store_recording creds req ts uuidStr now st).body
        = some (.str (uuidStr.take 8))
    ∧ serve_video (uuidStr.take 8)
        (store_recording creds req ts uuidStr now st).state
      = { status := 200
          body := .bytes x
          mimetype := some "video/webm"
          headers :=
            [("Content-Disposition",
                "inline; filename=\""
                  ++ ("blueshift-recording-" ++ toString ts ++ "-"
                        ++ uuidStr.take 8 ++ ".webm") ++ "\""),
             ("Content-Length", toString x.length)] } := by
  refine ⟨?_, ?_, ?_⟩
  · simp [store_recording, h]
  · simp [store_recording, h, jsonGet]
  · simp [store_recording, h, serve_video, dictGet_dictInsert_self]

/-- Witness for C1 at the spec's concrete scenario: the bytes of
`hello-video`, duration `00:05`, one fresh UUID draw. -/
theorem store_then_serve_roundtrip_witness :
    serve_video (String.take "0a1b2c3d-1111-2222-3333-444455556666" 8)
        (store_recording none
          ⟨some [104, 101, 108, 108, 111, 45, 118, 105, 100, 101, 111],
           some "00:05", "http://localhost/"⟩ 1700000000
          "0a1b2c3d-1111-2222-3333-444455556666" "2026-01-01T00:00:00"
          initialState).state
      = { status := 200
          body := .bytes [104, 101, 108, 108, 111, 45, 118, 105, 100, 101, 111]
          mimetype := some "video/webm"
          headers :=
            [("Content-Disposition",
                "inline; filename=\""
                  ++ ("blueshift-recording-" ++ toString (1700000000 : Nat) ++ "-"
                        ++ String.take "0a1b2c3d-1111-2222-3333-444455556666" 8
                        ++ ".webm") ++ "\""),
             ("Content-Length",
                toString ([104, 101, 108, 108, 111, 45, 118, 105, 100, 101,
                  111] : List Nat).length)] } :=
  (store_then_serve_roundtrip none initialState
    [104, 101, 108, 108, 111, 45, 118, 105, 100, 101, 111]
    ⟨some [104, 101, 108, 108, 111, 45, 118, 105, 100, 101, 111],
     some "00:05", "http://localhost/"⟩ 1700000000
    "0a1b2c3d-1111-2222-3333-444455556666" "2026-01-01T00:00:00" rfl).2.2

/-- C8: for an accepted upload with a 36-character UUID draw, the issued
handle is the 8-character slice of the UUID (so `recording_id` has fixed
length 8), and the stored filename is
`blueshift-recording-{timestamp}-{id}.webm`. -/
theorem handle_issuance_shape (creds : Option String) (st : AppState)
    (x : List Nat) (req : StoreRequest) (ts : Nat) (uuidStr now : String)
    (h : req.recording = some x) (hu : uuidStr.length = 36) :
    jsonGet "recording_id" (store_recording creds req ts uuidStr now st).body
      = some (.str (uuidStr.take 8))
    ∧ (uuidStr.take 8).length = 8
    ∧ (dictGet (uuidStr.take 8)
        (store_recording creds req ts uuidStr now st).state.recordings_storage).map
          Recording.filename
      = some ("blueshift-recording-" ++ toString ts ++ "-" ++ uuidStr.take 8
          ++ ".webm") := by
  refine ⟨?_, length_take_eight uuidStr (by omega), ?_⟩
  · simp [store_recording, h, jsonGet]
  · simp [store_recording, h, dictGet_dictInsert_self]

/-- Witness for C8 at a concrete upload and UUID draw. -/
theorem handle_issuance_shape_witness :
    (String.take "0a1b2c3d-1111-2222-3333-444455556666" 8).length = 8 :=
  (handle_issuance_shape none initialState [104] ⟨some [104], none, ""⟩ 0
    "0a1b2c3d-1111-2222-3333-444455556666" "2026-01-01T00:00:00" rfl
    (by decide)).2.1

/-- C9: a session-gated admin route answers a 401 JSON error for a JSON
(API-style) caller and a redirect to the login page otherwise when no
authenticated session is present; after a valid username/password
exchange the session is marked authenticated and the gate lets the
routes proceed. -/
theorem auth_gate_and_login (pbkdf2 : String → String)
    (admin_username admin_password : String) (sess : Session) (is_json : Bool)
    (hsess : sess.authenticated = false) :
    require_auth sess is_json
      = (if is_json
          then .unauthorized401 [("error", JsonVal.str "Authentication required")]
          else .redirectLogin)
    ∧ (admin_login_post pbkdf2 admin_username admin_password
        admin_username admin_password sess).1 = .redirectDashboard
    ∧ (admin_login_post pbkdf2 admin_username admin_password
        admin_username admin_password sess).2.authenticated = true
    ∧ require_auth
        (admin_login_post pbkdf2 admin_username admin_password
          admin_username admin_password sess).2 is_json
      = .proceed := by
  have hv : verify_admin_password pbkdf2 admin_username admin_password
      admin_username admin_password = true := by
    simp [verify_admin_password]
  refine ⟨?_, ?_, ?_, ?_⟩ <;>
    simp [require_auth, admin_login_post, hv, hsess]

/-- Witness for C9 with the default credentials and a fresh session. -/
theorem auth_gate_and_login_witness :
    require_auth
      (admin_login_post (fun s => s) "admin" "change-in-production" "admin"
        "change-in-production" ⟨false, none⟩).2 false = .proceed :=
  (auth_gate_and_login (fun s => s) "admin" "change-in-production"
    ⟨false, none⟩ false rfl).2.2.2

/-- C6: `log_error` keeps the error log a bounded ring buffer of capacity
50: from any log within the cap, the log stays within the cap after the
call, the newest entry (with its timestamp) is at the tail, and when the
cap would be exceeded the oldest entry is evicted first. -/
theorem error_log_ring_buffer (now msg : String) (elog : List ErrorEntry)
    (h : elog.length ≤ 50) :
    (log_error now msg elog).length ≤ 50
    ∧ (log_error now msg elog).getLast? = some ⟨now, msg⟩
    ∧ (elog.length = 50 →
        log_error now msg elog = elog.drop 1 ++ [⟨now, msg⟩]) := by
  refine ⟨length_trimAppend_le 50 elog _ h, ?_, ?_⟩
  · simp only [log_error, trimAppend]
    by_cases hc : (elog ++ [(⟨now, msg⟩ : ErrorEntry)]).length > 50
    · rw [if_pos hc]
      have hone : (1 : Nat) ≤ elog.length := by
        simp only [List.length_append, List.length_singleton] at hc
        omega
      rw [List.drop_append_of_le_length hone, List.getLast?_concat]
    · rw [if_neg hc, List.getLast?_concat]
  · intro h50
    simp only [log_error, trimAppend]
    have hgt : (elog ++ [(⟨now, msg⟩ : ErrorEntry)]).length > 50 := by
      simp only [List.length_append, List.length_singleton]
      omega
    rw [if_pos hgt, List.drop_append_of_le_length (by omega)]

/-- Witness for C6: logging one error into an empty error log. -/
theorem error_log_ring_buffer_witness :
    (log_error "2026-01-01T00:00:00" "boom" []).getLast?
      = some ⟨"2026-01-01T00:00:00", "boom"⟩ :=
  (error_log_ring_buffer "2026-01-01T00:00:00" "boom" [] (by decide)).2.1

/-- C5: the upload-event log never holds more than 100 entries after any
sequence of upload requests, and eviction is FIFO: running 150 accepted
uploads from the initial state leaves exactly the events of the newest
100, in insertion order (the oldest 50 are dropped). -/
theorem upload_log_cap_and_fifo (creds : Option String) :
    (∀ (us : List UploadInput) (st : AppState),
       st.recording_log.length ≤ 100 →
       (runUploads creds st us).recording_log.length ≤ 100)
    ∧ (∀ us : List UploadInput,
        (∀ u ∈ us, u.req.recording.isSome) → us.length = 150 →
        (runUploads creds initialState us).recording_log
          = (us.map UploadInput.entry).drop 50) := by
  refine ⟨runUploads_log_le creds, ?_⟩
  intro us hall h150
  have hinit : initialState.recording_log = ([] : List RecordingEntry) := rfl
  have hlen : (us.map UploadInput.entry).length = 150 := by
    rw [List.length_map, h150]
  rw [runUploads_log creds us initialState hall, hinit,
    foldl_trimAppend 100 (us.map UploadInput.entry) [] (by simp), hlen]
  simp

set_option maxRecDepth 8192 in
/-- Witness for C5: 150 concrete sequential uploads keep exactly the
newest 100 events. -/
theorem upload_log_cap_and_fifo_witness :
    (runUploads none initialState testUploads150).recording_log
      = (testUploads150.map UploadInput.entry).drop 50 :=
  (upload_log_cap_and_fifo none).2 testUploads150 (by decide) (by decide)

/-- C10: `GET /health` reports `total_recordings` as the length of the
capped upload-event log, which never exceeds 100; after more than 100
accepted uploads (with distinct issued handles) the store holds one
record per upload, so `total_recordings` is strictly less than the number
of recordings actually held in the store. -/
theorem health_total_recordings (creds : Option String) (avail : Bool) :
    (∀ (us : List UploadInput) (st : AppState),
       st.recording_log.length ≤ 100 →
       jsonGet "total_recordings" (health creds avail (runUploads creds st us))
         = some (.nat (runUploads creds st us).recording_log.length)
       ∧ (runUploads creds st us).recording_log.length ≤ 100)
    ∧ (∀ us : List UploadInput,
        (∀ u ∈ us, u.req.recording.isSome) →
        (us.map UploadInput.uid).Nodup →
        us.length > 100 →
        (runUploads creds initialState us).recordings_storage.length
            = us.length
        ∧ (runUploads creds initialState us).recording_log.length
            < (runUploads creds initialState us).recordings_storage.length) := by
  constructor
  · intro us st h
    refine ⟨?_, runUploads_log_le creds us st h⟩
    simp [health, jsonGet]
  · intro us hall hnodup hgt
    have hstore : (runUploads creds initialState us).recordings_storage.length
        = us.length := by
      have h0 := runUploads_store_length creds us initialState hall
        (fun u _ => rfl) hnodup
      simpa [initialState] using h0
    refine ⟨hstore, ?_⟩
    rw [hstore]
    calc (runUploads creds initialState us).recording_log.length
        ≤ 100 := runUploads_log_le creds us initialState (by decide)
      _ < us.length := hgt

set_option maxRecDepth 8192 in
/-- Witness for C10: after 101 concrete uploads with distinct handles the
event log (hence `total_recordings`) is strictly below the store size. -/
theorem health_total_recordings_witness :
    (runUploads none initialState testUploads101).recording_log.length
      < (runUploads none initialState testUploads101).recordings_storage.length :=
  ((health_total_recordings none true).2 testUploads101 (by decide) (by decide)
    (by decide)).2
